import Mathlib

/-!
Verification of the TiRex offline-weights utilities.

The repository consists of three pieces of logic:
  * `src/src/tirex/offline.py` — `setup_offline_env`, `get_weights_path`,
    `is_offline_mode`: resolve a weights path, publish it in the environment
    variable `TIREX_WEIGHTS_PATH`, and query the resulting offline state;
  * `src/check_weights.py` — `check_weights`: a diagnostic that classifies the
    default location and the environment-supplied candidate;
  * `src/setup_offline_weights.py` — `setup_offline_weights`: provision the
    checkpoint from the HuggingFace Hub registry into a cache directory and
    copy it to the canonical `model.ckpt` path.

The filesystem is modelled as an association list from path strings to entries
(regular file with byte size, directory, or other object); the process
environment as an association list from variable names to values.  The
`hf_hub_download` registry call is external third-party code and is modelled as
an oracle argument recording its outcome.  Print statements are presentation
glue and are not modelled.
-/

/-- Filesystem entry at a path: a regular file with its byte size, a directory,
or some other object (broken symlink, special file). -/
inductive FSEntry where
  | file (size : Nat)
  | dir
  | other
deriving DecidableEq

/-- A filesystem modelled as an association list from paths to entries. -/
abbrev FS := List (String × FSEntry)

/-- The process environment modelled as an association list from variable names
to values. -/
abbrev Env := List (String × String)

/-- Lookup in an association list keyed by strings. -/
def alookup {α : Type} : List (String × α) → String → Option α
  | [], _ => none
  | (k, v) :: rest, q => if k = q then some v else alookup rest q

/-- Remove every binding of a key from an association list. -/
def aremove {α : Type} : List (String × α) → String → List (String × α)
  | [], _ => []
  | (k, v) :: rest, q => if k = q then aremove rest q else (k, v) :: aremove rest q

/-- Update a key's binding in an association list. -/
def aset {α : Type} (l : List (String × α)) (k : String) (v : α) : List (String × α) :=
  (k, v) :: aremove l k

/-- Models os.path.exists: the empty path never exists (Python returns False
for the empty string). -/
def pathExists (fs : FS) (p : String) : Bool :=
  if p = "" then false else (alookup fs p).isSome

/-- Models Path.is_dir on the modelled filesystem. -/
def isDir (fs : FS) (p : String) : Bool :=
  match alookup fs p with
  | some FSEntry.dir => true
  | _ => false

/-- Models Path.is_file on the modelled filesystem. -/
def isFile (fs : FS) (p : String) : Bool :=
  match alookup fs p with
  | some (FSEntry.file _) => true
  | _ => false

/-- Models stat().st_size for regular files. -/
def fileSize (fs : FS) (p : String) : Option Nat :=
  match alookup fs p with
  | some (FSEntry.file s) => some s
  | _ => none

/-- Models os.path.expanduser.  A lone "~" or a leading "~/" is expanded
against the user's home directory (assumed not to end in a slash, as CPython
strips trailing slashes from it); a "~user" form is modelled as the
unresolvable-user case, in which CPython returns the path unchanged. -/
def expandUser (home p : String) : String :=
  match p.data with
  | ['~'] => home
  | '~' :: '/' :: rest => home ++ String.mk ('/' :: rest)
  | _ => p

/-- Models os.path.join d f for a relative second component f: the separator
is inserted unless d is empty or already ends with a slash. -/
def joinPath (d f : String) : String :=
  if d = "" then f
  else if d.data.getLast? = some '/' then d ++ f
  else d ++ "/" ++ f

/-- Models Path(p).mkdir(parents=True, exist_ok=True): a no-op when the path
already exists; creation of intermediate parents and the error raised on a
pre-existing non-directory are not modelled (no claim depends on them). -/
def mkdirP (fs : FS) (p : String) : FS :=
  if pathExists fs p then fs else aset fs p FSEntry.dir

/-- The environment variable written and read by the offline module. -/
def tirexKey : String := "TIREX_WEIGHTS_PATH"

/-- The default cache location literal appearing at offline.py line 43 and
setup_offline_weights.py line 48. -/
def defaultWeightsRel : String := "~/.cache/tirex/weights"

/-- Path resolution shared by offline.py lines 42-45 and
setup_offline_weights.py lines 47-50: the explicit argument when provided,
otherwise the default cache location; os.path.expanduser is applied either
way.  The environment variable is not consulted here. -/
def resolve_weights_path (home : String) (weights_path : Option String) : String :=
  match weights_path with
  | none => expandUser home defaultWeightsRel
  | some p => expandUser home p

/-- Embeds setup_offline_env (offline.py lines 17-61): resolve the path (with
expanduser), return False without mutating anything when the resolved path does
not exist and create_if_missing is false, create the directory when requested,
and on success publish the resolved path into TIREX_WEIGHTS_PATH and return
True.  Result: (return value, environment, filesystem). -/
def setup_offline_env (home : String) (env : Env) (fs : FS)
    (weights_path : Option String) (create_if_missing : Bool) : Bool × Env × FS :=
  if pathExists fs (resolve_weights_path home weights_path) = false then
    if create_if_missing then
      (true, aset env tirexKey (resolve_weights_path home weights_path),
        mkdirP fs (resolve_weights_path home weights_path))
    else
      (false, env, fs)
  else
    (true, aset env tirexKey (resolve_weights_path home weights_path), fs)

/-- Embeds get_weights_path (offline.py lines 64-71):
os.getenv("TIREX_WEIGHTS_PATH"). -/
def get_weights_path (env : Env) : Option String :=
  alookup env tirexKey

/-- Embeds is_offline_mode (offline.py lines 74-79): True iff the slot is set,
truthy (non-empty, Python string truthiness), and the stored path exists on the
filesystem given at call time. -/
def is_offline_mode (env : Env) (fs : FS) : Bool :=
  match get_weights_path env with
  | none => false
  | some wp => if wp = "" then false else pathExists fs wp

/-- Path.home() / ".cache" / "tirex" / "weights" / "model.ckpt"
(check_weights.py line 15). -/
def defaultCkptPath (home : String) : String :=
  home ++ "/.cache/tirex/weights/model.ckpt"

/-- Check 1 of check_weights (check_weights.py lines 14-21): the default
location report.  The classification is the exists() test alone; the size is
read only when the file exists and only for display. -/
def check_default (fs : FS) (home : String) : Bool × Option Nat :=
  (pathExists fs (defaultCkptPath home),
    if pathExists fs (defaultCkptPath home) then fileSize fs (defaultCkptPath home) else none)

/-- Check 2 of check_weights (check_weights.py lines 24-44): classification of
the environment-supplied candidate.  An unset or empty value is skipped
(Python truthiness); a directory candidate is classified by the existence of
model.ckpt inside it; a file candidate is classified found (its size is only
displayed); any other path is reported as not existing. -/
def check_env_candidate (fs : FS) (envPath : Option String) : Bool :=
  match envPath with
  | none => false
  | some p =>
    if p = "" then false
    else if isDir fs p then pathExists fs (joinPath p "model.ckpt")
    else if isFile fs p then true
    else false

/-- Outcome of one hf_hub_download call, supplied as an oracle: the registry
either returns the path of the downloaded checkpoint inside its managed cache
(together with the downloaded file's byte size), or raises an exception whose
message is recorded. -/
inductive DLResult where
  | ok (path : String) (size : Nat)
  | err (msg : String)
deriving DecidableEq

/-- Result of setup_offline_weights: the boolean return value, the process
environment (which the function never touches), the filesystem, and the
content of the .env settings file when one was written. -/
structure SWOutcome where
  success : Bool
  env : Env
  fs : FS
  envFile : Option String
deriving DecidableEq

/-- The single line written to the .env settings file
(setup_offline_weights.py line 76). -/
def envFileLine (cd : String) : String := "TIREX_WEIGHTS_PATH=" ++ cd ++ "\n"

/-- The canonical checkpoint path standard_path = os.path.join(cache_dir,
"model.ckpt") of setup_offline_weights.py line 68, for a resolved cache
directory. -/
def canonicalPath (home : String) (cache_dir : Option String) : String :=
  joinPath (resolve_weights_path home cache_dir) "model.ckpt"

/-- Embeds setup_offline_weights (setup_offline_weights.py lines 40-94).  The
cache directory is resolved exactly as in offline.py and created with
mkdir(parents=True, exist_ok=True) before the fetch.  The hf_hub_download call
is the oracle dl; on success the checkpoint file appears at the returned path
and the script copies it (shutil.copy2 — the registry cache entry is left in
place) to the canonical path when the two differ, then optionally writes the
.env settings file.  The surrounding try/except catches every exception from
the fetch: the function prints a diagnostic and returns False, so exactly one
fetch outcome is consumed per call and no error propagates.  The process
environment is never touched. -/
def setup_offline_weights (home : String) (env : Env) (fs : FS)
    (model_id : String) (cache_dir : Option String) (create_env_file : Bool)
    (dl : DLResult) : SWOutcome :=
  let cd := resolve_weights_path home cache_dir
  let fs1 := mkdirP fs cd
  match dl with
  | DLResult.err _ => ⟨false, env, fs1, none⟩
  | DLResult.ok cp s =>
    let fs2 := aset fs1 cp (FSEntry.file s)
    let std := joinPath cd "model.ckpt"
    let fs3 := if cp ≠ std then aset fs2 std (FSEntry.file s) else fs2
    ⟨true, env, fs3, if create_env_file then some (envFileLine cd) else none⟩

/-! ### Helper lemmas about the association-list model -/

theorem alookup_aremove_ne {α : Type} (l : List (String × α)) (k q : String)
    (h : q ≠ k) : alookup (aremove l k) q = alookup l q := by
  have hkq : ¬ k = q := fun e => h e.symm
  induction l with
  | nil => rfl
  | cons kv rest ih =>
    obtain ⟨k0, v0⟩ := kv
    by_cases hk : k0 = k
    · simp [aremove, alookup, hk, hkq, ih]
    · by_cases hq : k0 = q <;> simp [aremove, alookup, hk, hq, hkq, h, ih]

theorem alookup_aremove_self {α : Type} (l : List (String × α)) (k : String) :
    alookup (aremove l k) k = none := by
  induction l with
  | nil => rfl
  | cons kv rest ih =>
    obtain ⟨k0, v0⟩ := kv
    by_cases hk : k0 = k <;> simp [aremove, alookup, hk, ih]

theorem alookup_aset_self {α : Type} (l : List (String × α)) (k : String) (v : α) :
    alookup (aset l k v) k = some v := by
  simp [aset, alookup]

theorem alookup_aset_ne {α : Type} (l : List (String × α)) (k q : String) (v : α)
    (h : q ≠ k) : alookup (aset l k v) q = alookup l q := by
  have hk : ¬ k = q := fun e => h e.symm
  simp [aset, alookup, hk, alookup_aremove_ne l k q h]

theorem strDataAppend (a b : String) : (a ++ b).data = a.data ++ b.data := by
  cases a; cases b; rfl

theorem ne_empty_of_data_ne_nil (s : String) (h : s.data ≠ []) : s ≠ "" :=
  fun e => h (by rw [e])

theorem append_ne_empty_of_right (d t : String) (ht : t.data ≠ []) :
    (d ++ t) ≠ "" := by
  apply ne_empty_of_data_ne_nil
  rw [strDataAppend]
  intro hnil
  rcases List.append_eq_nil.mp hnil with ⟨-, h2⟩
  exact ht h2

theorem joinPath_model_ne_empty (d : String) : joinPath d "model.ckpt" ≠ "" := by
  unfold joinPath
  split
  · decide
  · split
    · exact append_ne_empty_of_right d "model.ckpt" (by decide)
    · exact append_ne_empty_of_right (d ++ "/") "model.ckpt" (by decide)

theorem isDir_eq_false_of_isFile (fs : FS) (p : String) (hf : isFile fs p = true) :
    isDir fs p = false := by
  unfold isFile at hf
  unfold isDir
  cases h : alookup fs p with
  | none => rw [h] at hf
  | some e =>
    rw [h] at hf
    cases e with
    | file s => rfl
    | dir => exact absurd hf (by decide)
    | other => exact absurd hf (by decide)

/-- On every successful execution path of setup_offline_env, the published
value of the TIREX_WEIGHTS_PATH slot is the resolved (tilde-expanded) path. -/
theorem soe_ok_slot (home : String) (env : Env) (fs : FS) (wpo : Option String)
    (c : Bool) (hok : (setup_offline_env home env fs wpo c).1 = true) :
    alookup (setup_offline_env home env fs wpo c).2.1 tirexKey
      = some (resolve_weights_path home wpo) := by
  unfold setup_offline_env at hok ⊢
  by_cases hex : pathExists fs (resolve_weights_path home wpo) = false
  · rw [if_pos hex] at hok ⊢
    cases hc : c with
    | false => rw [hc] at hok; simp at hok
    | true => simp [alookup_aset_self]
  · rw [if_neg hex]
    simp [alookup_aset_self]

theorem defaultCkptPath_ne_empty (home : String) : defaultCkptPath home ≠ "" := by
  unfold defaultCkptPath
  exact append_ne_empty_of_right home "/.cache/tirex/weights/model.ckpt" (by decide)

/-! ### Claim theorems -/

/-- C1 (counterexample): a zero-byte model.ckpt at the canonical default path
is classified Found by the diagnostic Verifier — check_weights uses the
exists() test alone as the classification and never compares the size against
zero — contradicting the claim that verifying a zero-byte file at the
canonical path returns NotFound, never Found. -/
theorem C1_zero_byte_classified_found :
    (check_default [(defaultCkptPath "/h", FSEntry.file 0)] "/h").1 = true
    ∧ fileSize [(defaultCkptPath "/h", FSEntry.file 0)] (defaultCkptPath "/h") = some 0 :=
  ⟨by decide, by decide⟩

/-- C1 (amended): the Verifier classifies a candidate as Found iff the
candidate file exists — the default candidate iff the canonical file exists, a
directory candidate iff model.ckpt exists inside it, an existing file
candidate always — regardless of size; in particular a canonical file of any
size, zero included, is classified Found. -/
theorem C1_found_iff_exists (fs : FS) (home : String) (p : String) (hp : p ≠ "") :
    ((check_default fs home).1 = true ↔ pathExists fs (defaultCkptPath home) = true)
    ∧ (isDir fs p = true →
        (check_env_candidate fs (some p) = true
          ↔ pathExists fs (joinPath p "model.ckpt") = true))
    ∧ (isFile fs p = true → check_env_candidate fs (some p) = true)
    ∧ (∀ s : Nat,
        (check_default (aset fs (defaultCkptPath home) (FSEntry.file s)) home).1 = true) := by
  refine ⟨Iff.rfl, ?_, ?_, ?_⟩
  · intro hd
    simp [check_env_candidate, hp, hd]
  · intro hf
    have hd := isDir_eq_false_of_isFile fs p hf
    simp [check_env_candidate, hp, hd, hf]
  · intro s
    simp [check_default, pathExists, defaultCkptPath_ne_empty home, alookup_aset_self]

/-- C1 witness: the amended theorem applied at a concrete directory state. -/
theorem C1_found_iff_exists_witness :
    ("/w" : String) ≠ ""
    ∧ (((check_default [("/w", FSEntry.dir)] "/h").1 = true
          ↔ pathExists [("/w", FSEntry.dir)] (defaultCkptPath "/h") = true)
      ∧ (isDir [("/w", FSEntry.dir)] "/w" = true →
          (check_env_candidate [("/w", FSEntry.dir)] (some "/w") = true
            ↔ pathExists [("/w", FSEntry.dir)] (joinPath "/w" "model.ckpt") = true))
      ∧ (isFile [("/w", FSEntry.dir)] "/w" = true →
          check_env_candidate [("/w", FSEntry.dir)] (some "/w") = true)
      ∧ (∀ s : Nat,
          (check_default (aset [("/w", FSEntry.dir)] (defaultCkptPath "/h") (FSEntry.file s))
            "/h").1 = true)) :=
  ⟨by decide, C1_found_iff_exists [("/w", FSEntry.dir)] "/h" "/w" (by decide)⟩

/-- C2: for a path p (already in expanded form; expansion itself is the
subject of C9) that does not exist, enable with create_if_missing=False
returns False and leaves both the environment and the filesystem unchanged,
while enable with create_if_missing=True returns True, creates the directory,
and publishes p into the TIREX_WEIGHTS_PATH slot. -/
theorem C2_enable_missing_path (home : String) (env : Env) (fs : FS) (p : String)
    (hexp : expandUser home p = p) (h : pathExists fs p = false) :
    setup_offline_env home env fs (some p) false = (false, env, fs)
    ∧ (setup_offline_env home env fs (some p) true).1 = true
    ∧ alookup (setup_offline_env home env fs (some p) true).2.1 tirexKey = some p
    ∧ isDir (setup_offline_env home env fs (some p) true).2.2 p = true := by
  have hr : resolve_weights_path home (some p) = p := by
    simp [resolve_weights_path, hexp]
  refine ⟨?_, ?_, ?_, ?_⟩ <;>
    simp [setup_offline_env, hr, h, mkdirP, isDir, alookup_aset_self]

/-- C2 witness: the theorem applied at a concrete non-existent path. -/
theorem C2_enable_missing_path_witness :
    setup_offline_env "/h" [] [] (some "/x") false = (false, [], [])
    ∧ (setup_offline_env "/h" [] [] (some "/x") true).1 = true
    ∧ alookup (setup_offline_env "/h" [] [] (some "/x") true).2.1 tirexKey = some "/x"
    ∧ isDir (setup_offline_env "/h" [] [] (some "/x") true).2.2 "/x" = true :=
  C2_enable_missing_path "/h" [] [] "/x" (by decide) (by decide)

/-- C3: is_offline_mode returns true iff get_weights_path yields a set value
and that path exists on the filesystem supplied at the call.  The embedding
passes the filesystem state to every call, so the existence test is
re-evaluated against the current state each time, never cached. -/
theorem C3_enabled_iff_set_and_exists (env : Env) (fs : FS) :
    is_offline_mode env fs = true ↔
      ∃ wp, get_weights_path env = some wp ∧ pathExists fs wp = true := by
  unfold is_offline_mode
  cases h : get_weights_path env with
  | none => simp
  | some wp =>
    by_cases hw : wp = ""
    · subst hw
      simp [pathExists]
    · simp [hw]

/-- C7: after any successful enable, current_path still reports the published
path while is_enabled returns false on the state in which that path has been
removed from storage — immediately, with no further enable call. -/
theorem C7_stale_state (home : String) (env : Env) (fs : FS) (wpo : Option String)
    (c : Bool) (hok : (setup_offline_env home env fs wpo c).1 = true) :
    get_weights_path (setup_offline_env home env fs wpo c).2.1
      = some (resolve_weights_path home wpo)
    ∧ is_offline_mode (setup_offline_env home env fs wpo c).2.1
        (aremove (setup_offline_env home env fs wpo c).2.2 (resolve_weights_path home wpo))
      = false := by
  have h1 := soe_ok_slot home env fs wpo c hok
  refine ⟨h1, ?_⟩
  unfold is_offline_mode get_weights_path
  unfold get_weights_path at h1
  rw [h1]
  by_cases hw : resolve_weights_path home wpo = ""
  · simp [hw]
  · simp [hw, pathExists, alookup_aremove_self]

/-- C7 witness: enable succeeds on an existing directory, the directory is then
removed, and the stale state is observed. -/
theorem C7_stale_state_witness :
    get_weights_path (setup_offline_env "/h" [] [("/w", FSEntry.dir)] (some "/w") false).2.1
      = some (resolve_weights_path "/h" (some "/w"))
    ∧ is_offline_mode (setup_offline_env "/h" [] [("/w", FSEntry.dir)] (some "/w") false).2.1
        (aremove (setup_offline_env "/h" [] [("/w", FSEntry.dir)] (some "/w") false).2.2
          (resolve_weights_path "/h" (some "/w")))
      = false :=
  C7_stale_state "/h" [] [("/w", FSEntry.dir)] (some "/w") false (by decide)

/-- C10: TIREX_WEIGHTS_PATH is the only environment entry any operation of the
module writes — setup_offline_env leaves every other key unchanged on every
execution path, and setup_offline_weights returns the environment untouched on
both its outcomes.  get_weights_path and is_offline_mode are embedded as pure
reads of the environment, mirroring source functions that contain no
environment store. -/
theorem C10_env_frame (home : String) (env : Env) (fs : FS) (wpo : Option String)
    (c : Bool) (mid : String) (cd : Option String) (cef : Bool) (dl : DLResult)
    (k : String) (hk : k ≠ tirexKey) :
    alookup (setup_offline_env home env fs wpo c).2.1 k = alookup env k
    ∧ (setup_offline_weights home env fs mid cd cef dl).env = env := by
  constructor
  · unfold setup_offline_env
    by_cases hex : pathExists fs (resolve_weights_path home wpo) = false
    · rw [if_pos hex]
      cases c with
      | false => simp
      | true => simp [alookup_aset_ne _ _ _ _ hk]
    · rw [if_neg hex]
      simp [alookup_aset_ne _ _ _ _ hk]
  · cases dl <;> rfl

/-- C10 witness: the frame property at a concrete state and the unrelated key
PATH. -/
theorem C10_env_frame_witness :
    alookup (setup_offline_env "/h" [("PATH", "/bin")] [("/w", FSEntry.dir)]
        (some "/w") false).2.1 "PATH" = alookup [("PATH", "/bin")] "PATH"
    ∧ (setup_offline_weights "/h" [("PATH", "/bin")] [] "NX-AI/TiRex" (some "/cache") false
        (DLResult.ok "/cache/blobs/abc" 7)).env = [("PATH", "/bin")] :=
  C10_env_frame "/h" [("PATH", "/bin")] [("/w", FSEntry.dir)] (some "/w") false
    "NX-AI/TiRex" (some "/cache") false (DLResult.ok "/cache/blobs/abc" 7) "PATH" (by decide)

/-- One successful provisioning call, from any starting filesystem: the call
returns True and leaves the canonical path populated as a regular file of the
fetched size. -/
theorem sw_ok_canonical (home : String) (env : Env) (fs : FS) (mid : String)
    (cd : Option String) (cef : Bool) (cp : String) (s : Nat) :
    (setup_offline_weights home env fs mid cd cef (DLResult.ok cp s)).success = true
    ∧ fileSize (setup_offline_weights home env fs mid cd cef (DLResult.ok cp s)).fs
        (canonicalPath home cd) = some s
    ∧ pathExists (setup_offline_weights home env fs mid cd cef (DLResult.ok cp s)).fs
        (canonicalPath home cd) = true := by
  by_cases hcs : cp = joinPath (resolve_weights_path home cd) "model.ckpt"
  · simp [setup_offline_weights, canonicalPath, hcs, fileSize, pathExists,
      alookup_aset_self, joinPath_model_ne_empty (resolve_weights_path home cd)]
  · simp [setup_offline_weights, canonicalPath, hcs, fileSize, pathExists,
      alookup_aset_self, joinPath_model_ne_empty (resolve_weights_path home cd)]

/-- C4: provisioning with a succeeding fetch of a non-empty artifact is
idempotent — after the first call and again after a second call with the same
identifier and cache directory, the canonical path holds an existing file of
size s > 0 (Verifier-valid), a pre-existing cache directory is not an error
(success holds from every starting filesystem, mkdir uses exist_ok), and when
the registry cache path differs from the canonical path the artifact is
copied, the registry cache entry remaining in place. -/
theorem C4_provision_idempotent (home : String) (env : Env) (fs : FS) (mid : String)
    (cd : Option String) (cef : Bool) (cp : String) (s : Nat)
    (hs : 0 < s) (hcp : cp ≠ "") :
    ((setup_offline_weights home env fs mid cd cef (DLResult.ok cp s)).success = true
      ∧ fileSize (setup_offline_weights home env fs mid cd cef (DLResult.ok cp s)).fs
          (canonicalPath home cd) = some s
      ∧ pathExists (setup_offline_weights home env fs mid cd cef (DLResult.ok cp s)).fs
          (canonicalPath home cd) = true)
    ∧ ((setup_offline_weights home env
          (setup_offline_weights home env fs mid cd cef (DLResult.ok cp s)).fs
          mid cd cef (DLResult.ok cp s)).success = true
      ∧ fileSize (setup_offline_weights home env
          (setup_offline_weights home env fs mid cd cef (DLResult.ok cp s)).fs
          mid cd cef (DLResult.ok cp s)).fs (canonicalPath home cd) = some s
      ∧ pathExists (setup_offline_weights home env
          (setup_offline_weights home env fs mid cd cef (DLResult.ok cp s)).fs
          mid cd cef (DLResult.ok cp s)).fs (canonicalPath home cd) = true)
    ∧ 0 < s
    ∧ (cp ≠ canonicalPath home cd →
        pathExists (setup_offline_weights home env fs mid cd cef (DLResult.ok cp s)).fs cp
          = true) := by
  refine ⟨sw_ok_canonical home env fs mid cd cef cp s,
    sw_ok_canonical home env
      (setup_offline_weights home env fs mid cd cef (DLResult.ok cp s)).fs
      mid cd cef cp s, hs, ?_⟩
  intro hne
  have hne2 : cp ≠ joinPath (resolve_weights_path home cd) "model.ckpt" := hne
  simp [setup_offline_weights, pathExists, hcp, hne2,
    alookup_aset_ne _ _ _ _ hne2, alookup_aset_self]

/-- C4 witness: provisioning twice into /cache from a registry cache path. -/
theorem C4_provision_idempotent_witness :
    (0 : Nat) < 7 ∧ ("/cache/blobs/abc" : String) ≠ ""
    ∧ (((setup_offline_weights "/h" [] [] "NX-AI/TiRex" (some "/cache") false
          (DLResult.ok "/cache/blobs/abc" 7)).success = true
        ∧ fileSize (setup_offline_weights "/h" [] [] "NX-AI/TiRex" (some "/cache") false
            (DLResult.ok "/cache/blobs/abc" 7)).fs
            (canonicalPath "/h" (some "/cache")) = some 7
        ∧ pathExists (setup_offline_weights "/h" [] [] "NX-AI/TiRex" (some "/cache") false
            (DLResult.ok "/cache/blobs/abc" 7)).fs
            (canonicalPath "/h" (some "/cache")) = true)
      ∧ ((setup_offline_weights "/h" []
            (setup_offline_weights "/h" [] [] "NX-AI/TiRex" (some "/cache") false
              (DLResult.ok "/cache/blobs/abc" 7)).fs
            "NX-AI/TiRex" (some "/cache") false
            (DLResult.ok "/cache/blobs/abc" 7)).success = true
        ∧ fileSize (setup_offline_weights "/h" []
            (setup_offline_weights "/h" [] [] "NX-AI/TiRex" (some "/cache") false
              (DLResult.ok "/cache/blobs/abc" 7)).fs
            "NX-AI/TiRex" (some "/cache") false
            (DLResult.ok "/cache/blobs/abc" 7)).fs (canonicalPath "/h" (some "/cache"))
            = some 7
        ∧ pathExists (setup_offline_weights "/h" []
            (setup_offline_weights "/h" [] [] "NX-AI/TiRex" (some "/cache") false
              (DLResult.ok "/cache/blobs/abc" 7)).fs
            "NX-AI/TiRex" (some "/cache") false
            (DLResult.ok "/cache/blobs/abc" 7)).fs (canonicalPath "/h" (some "/cache"))
            = true)
      ∧ (0 : Nat) < 7
      ∧ (("/cache/blobs/abc" : String) ≠ canonicalPath "/h" (some "/cache") →
          pathExists (setup_offline_weights "/h" [] [] "NX-AI/TiRex" (some "/cache") false
            (DLResult.ok "/cache/blobs/abc" 7)).fs "/cache/blobs/abc" = true)) :=
  ⟨by decide, by decide,
    C4_provision_idempotent "/h" [] [] "NX-AI/TiRex" (some "/cache") false
      "/cache/blobs/abc" 7 (by decide) (by decide)⟩

/-- C5 (counterexample): with the explicit argument absent, the environment
variable set to an existing path, and nothing at the default location,
setup_offline_env resolves the default cache path and fails — resolution never
consults the environment value, so it does not return the highest-precedence
non-empty value among explicit, environment, default. -/
theorem C5_env_var_not_consulted :
    setup_offline_env "/h" [(tirexKey, "/envpath")] [("/envpath", FSEntry.dir)] none false
      = (false, [(tirexKey, "/envpath")], [("/envpath", FSEntry.dir)])
    ∧ pathExists [("/envpath", FSEntry.dir)] "/envpath" = true
    ∧ alookup [(tirexKey, "/envpath")] tirexKey = some "/envpath"
    ∧ resolve_weights_path "/h" none ≠ "/envpath" :=
  ⟨by decide, by decide, by decide, by decide⟩

/-- C5 (amended): resolution uses the precedence explicit argument over
default cache path and never consults the environment variable — the outcome
and filesystem effect of setup_offline_env are identical under any two
environments, the value published on success is the resolved path, resolution
is a total function that maps an explicit argument to its expansion and the
absent case to the expanded default home-relative cache path. -/
theorem C5_resolution_explicit_over_default (home : String) (env1 env2 : Env)
    (fs : FS) (wpo : Option String) (c : Bool)
    (hok : (setup_offline_env home env1 fs wpo c).1 = true) :
    (setup_offline_env home env1 fs wpo c).1 = (setup_offline_env home env2 fs wpo c).1
    ∧ (setup_offline_env home env1 fs wpo c).2.2
        = (setup_offline_env home env2 fs wpo c).2.2
    ∧ alookup (setup_offline_env home env1 fs wpo c).2.1 tirexKey
        = some (resolve_weights_path home wpo)
    ∧ (∀ q : String, resolve_weights_path home (some q) = expandUser home q)
    ∧ resolve_weights_path home none = expandUser home defaultWeightsRel := by
  refine ⟨?_, ?_, soe_ok_slot home env1 fs wpo c hok, fun q => rfl, rfl⟩ <;>
  · unfold setup_offline_env
    by_cases hex : pathExists fs (resolve_weights_path home wpo) = false
    · rw [if_pos hex, if_pos hex]
      cases c <;> simp
    · rw [if_neg hex, if_neg hex]

/-- C5 witness: the amended theorem under two different environments. -/
theorem C5_resolution_explicit_over_default_witness :
    (setup_offline_env "/h" [("OTHER", "x")] [("/w", FSEntry.dir)] (some "/w") false).1
      = (setup_offline_env "/h" [] [("/w", FSEntry.dir)] (some "/w") false).1
    ∧ (setup_offline_env "/h" [("OTHER", "x")] [("/w", FSEntry.dir)] (some "/w") false).2.2
        = (setup_offline_env "/h" [] [("/w", FSEntry.dir)] (some "/w") false).2.2
    ∧ alookup (setup_offline_env "/h" [("OTHER", "x")] [("/w", FSEntry.dir)]
        (some "/w") false).2.1 tirexKey = some (resolve_weights_path "/h" (some "/w"))
    ∧ (∀ q : String, resolve_weights_path "/h" (some q) = expandUser "/h" q)
    ∧ resolve_weights_path "/h" none = expandUser "/h" defaultWeightsRel :=
  C5_resolution_explicit_over_default "/h" [("OTHER", "x")] [] [("/w", FSEntry.dir)]
    (some "/w") false (by decide)

/-- C6 (counterexample): the outcomes of setup_offline_weights for two fetch
failures with different underlying causes are identical — the returned value
carries no cause at all — and the call returns False as an ordinary value
instead of propagating a typed error, contradicting the claim that the failure
propagates to the caller as a typed FetchError carrying the underlying cause
(the code's try/except swallows the exception). -/
theorem C6_error_not_propagated :
    setup_offline_weights "/h" [] [] "NX-AI/TiRex" (some "/cache") false
        (DLResult.err "network unreachable")
      = setup_offline_weights "/h" [] [] "NX-AI/TiRex" (some "/cache") false
        (DLResult.err "registry authentication failed")
    ∧ ("network unreachable" : String) ≠ "registry authentication failed"
    ∧ (setup_offline_weights "/h" [] [] "NX-AI/TiRex" (some "/cache") false
        (DLResult.err "network unreachable")).success = false :=
  ⟨rfl, by decide, rfl⟩

/-- C6 (amended): when the registry fetch fails, setup_offline_weights catches
the exception and reports the failure by returning False (the cause appears
only in a printed diagnostic): the environment is untouched, no settings file
is written, and the only filesystem effect is the cache-directory creation
performed before the fetch.  Exactly one fetch outcome is consumed per call,
so there is no internal retry. -/
theorem C6_fetch_failure_returns_false (home : String) (env : Env) (fs : FS)
    (mid : String) (cd : Option String) (cef : Bool) (msg : String) :
    (setup_offline_weights home env fs mid cd cef (DLResult.err msg)).success = false
    ∧ (setup_offline_weights home env fs mid cd cef (DLResult.err msg)).env = env
    ∧ (setup_offline_weights home env fs mid cd cef (DLResult.err msg)).envFile = none
    ∧ (setup_offline_weights home env fs mid cd cef (DLResult.err msg)).fs
        = mkdirP fs (resolve_weights_path home cd) :=
  ⟨rfl, rfl, rfl, rfl⟩

/-- C8: when settings-file creation is requested and provisioning succeeds,
the written file content is exactly TIREX_WEIGHTS_PATH=<cache directory>
followed by a single terminating newline — one KEY=VALUE line, the value being
the resolved cache directory (assumed newline-free, as any real path is), with
no newline inside the line — and the process environment after the call equals
the input environment: the module writes the file and never loads it back (no
function of the repository reads it). -/
theorem C8_env_file_single_line (home : String) (env : Env) (fs : FS)
    (mid : String) (cd : Option String) (cp : String) (s : Nat)
    (hnl : (resolve_weights_path home cd).data.count '\n' = 0) :
    (setup_offline_weights home env fs mid cd true (DLResult.ok cp s)).envFile
      = some (envFileLine (resolve_weights_path home cd))
    ∧ (envFileLine (resolve_weights_path home cd)).data
        = (tirexKey.data ++ '=' :: (resolve_weights_path home cd).data) ++ ['\n']
    ∧ (tirexKey.data ++ '=' :: (resolve_weights_path home cd).data).count '\n' = 0
    ∧ (setup_offline_weights home env fs mid cd true (DLResult.ok cp s)).env = env := by
  refine ⟨rfl, ?_, ?_, rfl⟩
  · unfold envFileLine
    rw [strDataAppend, strDataAppend]
    have h1 : "TIREX_WEIGHTS_PATH=".data = tirexKey.data ++ ['='] := by decide
    have h2 : "\n".data = ['\n'] := by decide
    rw [h1, h2]
    simp [List.append_assoc]
  · rw [List.count_append, List.count_cons]
    have h3 : tirexKey.data.count '\n' = 0 := by decide
    simp [h3, hnl]

/-- C8 witness: the settings file written for the cache directory /cache. -/
theorem C8_env_file_single_line_witness :
    (resolve_weights_path "/h" (some "/cache")).data.count '\n' = 0
    ∧ ((setup_offline_weights "/h" [] [] "NX-AI/TiRex" (some "/cache") true
          (DLResult.ok "/cache/blobs/abc" 7)).envFile
        = some (envFileLine (resolve_weights_path "/h" (some "/cache")))
      ∧ (envFileLine (resolve_weights_path "/h" (some "/cache"))).data
          = (tirexKey.data ++ '=' :: (resolve_weights_path "/h" (some "/cache")).data)
            ++ ['\n']
      ∧ (tirexKey.data ++ '=' :: (resolve_weights_path "/h" (some "/cache")).data).count '\n'
          = 0
      ∧ (setup_offline_weights "/h" [] [] "NX-AI/TiRex" (some "/cache") true
          (DLResult.ok "/cache/blobs/abc" 7)).env = []) :=
  ⟨by decide, C8_env_file_single_line "/h" [] [] "NX-AI/TiRex" (some "/cache")
    "/cache/blobs/abc" 7 (by decide)⟩

/-- C9 (counterexample): a "~user" path whose user cannot be resolved passes
through os.path.expanduser unchanged (CPython behaviour), so enabling an
existing directory literally named "~nouser" succeeds and stores a value that
begins with '~' in TIREX_WEIGHTS_PATH, contradicting the claim that the stored
value never begins with '~'. -/
theorem C9_tilde_user_not_expanded :
    (setup_offline_env "/h" [] [("~nouser", FSEntry.dir)] (some "~nouser") false).1 = true
    ∧ alookup (setup_offline_env "/h" [] [("~nouser", FSEntry.dir)]
        (some "~nouser") false).2.1 tirexKey = some "~nouser"
    ∧ "~nouser".data.head? = some '~' :=
  ⟨by decide, by decide, by decide⟩

/-- C9 (amended): setup_offline_env applies expanduser to the weights path
before the existence check, directory creation and publication, so the value
stored on success is exactly the expanded path; for the home-relative forms
"~" and "~/rest" the stored value does not begin with '~' (given that the home
directory itself does not) — only an unresolvable "~user" form persists in
tilde form. -/
theorem C9_expansion_applied (home : String) (env : Env) (fs : FS) (p : String)
    (c : Bool) (hok : (setup_offline_env home env fs (some p) c).1 = true)
    (hh : home.data.head? ≠ some '~') :
    alookup (setup_offline_env home env fs (some p) c).2.1 tirexKey
      = some (expandUser home p)
    ∧ (∀ rest : List Char, p.data = '~' :: '/' :: rest →
        (expandUser home p).data.head? ≠ some '~')
    ∧ (p = "~" → (expandUser home p).data.head? ≠ some '~') := by
  refine ⟨soe_ok_slot home env fs (some p) c hok, ?_, ?_⟩
  · intro rest hrest
    have hp2 : p = String.mk ('~' :: '/' :: rest) := by
      cases p with
      | mk pd => exact congrArg String.mk hrest
    rw [hp2]
    show (home ++ String.mk ('/' :: rest)).data.head? ≠ some '~'
    rw [strDataAppend]
    cases hd : home.data with
    | nil => simp
    | cons a as =>
      rw [hd] at hh
      simp only [List.head?_cons] at hh
      simp only [List.cons_append, List.head?_cons]
      exact hh
  · intro hp
    subst hp
    exact hh

/-- C9 witness: the amended theorem at a concrete successful enable. -/
theorem C9_expansion_applied_witness :
    alookup (setup_offline_env "/h" [] [("/w", FSEntry.dir)] (some "/w") false).2.1 tirexKey
      = some (expandUser "/h" "/w")
    ∧ (∀ rest : List Char, "/w".data = '~' :: '/' :: rest →
        (expandUser "/h" "/w").data.head? ≠ some '~')
    ∧ ("/w" = "~" → (expandUser "/h" "/w").data.head? ≠ some '~') :=
  C9_expansion_applied "/h" [] [("/w", FSEntry.dir)] "/w" false (by decide) (by decide)
